import Mathlib

/-!
Verification of `skills/scrapling/scripts/scrape_list.py`.

The script is a CLI utility built on the external `scrapling` library: it
fetches a page, selects item elements with a CSS selector, extracts fields
from each element and writes JSON or CSV.  The embedding below models the
pure logic of the script — field-spec parsing, field extraction, the
selection/fallback step of `scrape_page`, output shaping and the control
flow of the driver — as total Lean functions.  The external collaborator (the
scrapling library) is represented abstractly: an `Element` carries its text,
its attributes and its CSS sub-selection behaviour as data, and a `Page`
carries the results of the one fetch (status, selection, `find_similar`).
Console output is modelled as explicit `stdout`/`stderr` lists and the
written file as an explicit value.
-/

namespace ScrapeList

/-! ### String primitives mirroring the Python operations

The script uses `in` (substring test), `str.split`, `str.split(":", 1)`,
`str.strip`, `str.replace` and the regex `(.*)::attr\((\w+)\)` with
`re.match`.  Each is embedded on `List Char` below.
-/

/-- Prefix test: `listStartsWith l p` is true when `p` is a prefix of `l`
(Python `l.startswith(p)` on character lists). -/
def listStartsWith : List Char → List Char → Bool
  | _, [] => true
  | [], _ :: _ => false
  | x :: xs, y :: ys => x = y && listStartsWith xs ys

/-- Substring containment on character lists: Python `sub in s`. -/
def listContainsSub : List Char → List Char → Bool
  | [], sub => sub.isEmpty
  | x :: xs, sub => listStartsWith (x :: xs) sub || listContainsSub xs sub

/-- Python `sub in s` for strings. -/
def containsSub (s sub : String) : Bool :=
  listContainsSub s.toList sub.toList

/-- Python `s.split(c)` for a one-character separator: splits on every
occurrence, keeping empty pieces (`"".split(",") == [""]`). -/
def splitOnChar (c : Char) : List Char → List (List Char)
  | [] => [[]]
  | x :: xs =>
    let r := splitOnChar c xs
    if x = c then [] :: r
    else
      match r with
      | [] => [[x]]
      | h :: t => (x :: h) :: t

/-- Python `s.split(c, 1)` after an `if c in s` guard: splits at the first
occurrence of `c`, returning `none` when `c` does not occur. -/
def splitOnFirstChar (c : Char) : List Char → Option (List Char × List Char)
  | [] => none
  | x :: xs =>
    if x = c then some ([], xs)
    else (splitOnFirstChar c xs).map (fun p => (x :: p.1, p.2))

/-- The ASCII whitespace characters stripped by Python `str.strip()`. -/
def isSpaceChar (c : Char) : Bool :=
  c = ' ' || c = '\t' || c = '\n' || c = '\r' || c = '\x0b' || c = '\x0c'

/-- Python `str.strip()` on character lists. -/
def trimChars (l : List Char) : List Char :=
  ((l.dropWhile isSpaceChar).reverse.dropWhile isSpaceChar).reverse

/-- Python `str.strip()`. -/
def pyStrip (s : String) : String :=
  String.mk (trimChars s.toList)

/-- Python `selector.replace("::text", "")`: removes every (left-to-right,
non-overlapping) occurrence of the text marker. -/
def removeTextMarker : List Char → List Char
  | [] => []
  | ':' :: ':' :: 't' :: 'e' :: 'x' :: 't' :: rest => removeTextMarker rest
  | x :: xs => x :: removeTextMarker xs

/-- A regex `\w` word character (ASCII fragment): letter, digit or
underscore. -/
def isWordChar (c : Char) : Bool :=
  c.isAlphanum || c = '_'

/-- Maximal word-character prefix and the rest (how a greedy `\w+` scans). -/
def takeWordChars : List Char → List Char × List Char
  | [] => ([], [])
  | x :: xs =>
    if isWordChar x then
      let p := takeWordChars xs
      (x :: p.1, p.2)
    else ([], x :: xs)

/-- Does `l` begin with `::attr(` followed by a nonempty word run and `)`?
If so, return the attribute name.  (`re` needs a literal `::attr(`, then
`\w+` — greedy over word characters, so the run must be maximal and be
closed by `)` immediately.) -/
def matchAttrAt (l : List Char) : Option String :=
  if listStartsWith l "::attr(".toList then
    let rest := l.drop 7
    let p := takeWordChars rest
    if !p.1.isEmpty && p.2.head? = some ')' then some (String.mk p.1)
    else none
  else none

/-- Python `re.match(r"(.*)::attr\((\w+)\)", selector)`: anchored at the
start, group 1 is a greedy `.*` (which cannot cross a newline), group 2 a
word run.  The regex need not consume the whole string.  Returns
`(group 1, group 2)` on success. -/
def attrMatch (selector : String) : Option (String × String) :=
  let cs := selector.toList
  let hits := (List.range (cs.length + 1)).filterMap fun i =>
    if (cs.take i).contains '\n' then none
    else (matchAttrAt (cs.drop i)).map fun a => (String.mk (cs.take i), a)
  hits.getLast?

/-! ### `parse_fields` -/

/-- Python dict assignment `fields[k] = v` on an insertion-ordered
association list: overwrites the value in place when `k` is present,
appends otherwise. -/
def insertOverwrite : List (String × String) → String → String → List (String × String)
  | [], k, v => [(k, v)]
  | (k', v') :: rest, k, v =>
    if k' = k then (k, v) :: rest else (k', v') :: insertOverwrite rest k v

/-- Embeds `parse_fields` (scrape_list.py:45-52): split the field string on commas;
for each piece that contains a colon, split at the first colon, strip both
halves and store name ↦ selector in the (insertion-ordered) field map;
pieces without a colon are dropped. -/
def parse_fields (fields_str : String) : List (String × String) :=
  (splitOnChar ',' fields_str.toList).foldl
    (fun fields field =>
      match splitOnFirstChar ':' field with
      | some p => insertOverwrite fields (pyStrip (String.mk p.1)) (pyStrip (String.mk p.2))
      | none => fields)
    []

/-! ### Elements and `extract_field` -/

/-- An abstract scrapling element: its text content, its attributes
(`el.get(attr)`, `none` when absent) and its `css_first` sub-selection
behaviour.  The CSS semantics of the library are opaque, so sub-selection is
carried as a function. -/
inductive Element where
  | mk (text : String) (attrs : String → Option String)
      (sub : String → Option Element)

/-- Accessor for `el.text`. -/
def Element.text : Element → String
  | .mk t _ _ => t

/-- Accessor for `el.get(attr)`: the value of the attribute, or `none` when
absent. -/
def Element.get : Element → String → Option String
  | .mk _ a _, n => a n

/-- Accessor for `el.css_first(sel)`: first sub-element matching `sel`, or
`none`. -/
def Element.cssFirst : Element → String → Option Element
  | .mk _ _ c, s => c s

/-- The Python `selector.replace("::text", "")` of scrape_list.py:60: the
selector with the text markers removed. -/
def textRemainder (selector : String) : String :=
  String.mk (removeTextMarker selector.toList)

/-- Embeds `extract_field` (scrape_list.py:55-73).  Checks the three forms in
order: a `::text` marker selects a sub-element (or the element itself when
the remaining selector is empty) and returns its stripped text; an
`::attr(...)` marker is parsed with the regex and returns the named
attribute of the selected sub-element (or of the element itself), `none`
when the regex fails; otherwise the first match of the plain selector yields its
stripped text.  Every no-match case returns `none`. -/
def extract_field (element : Element) (selector : String) : Option String :=
  if containsSub selector "::text" then
    let sel := textRemainder selector
    let el := if sel ≠ "" then element.cssFirst sel else some element
    match el with
    | some e => some (pyStrip e.text)
    | none => none
  else if containsSub selector "::attr(" then
    match attrMatch selector with
    | some p =>
      let el := if p.1 ≠ "" then element.cssFirst p.1 else some element
      match el with
      | some e => e.get p.2
      | none => none
    | none => none
  else
    match element.cssFirst selector with
    | some e => some (pyStrip e.text)
    | none => none

/-! ### Pages and `scrape_page`

The fetch itself (`get_fetcher`, `Fetcher.fetch`/`Fetcher.get`) is external
IO performed by the scrapling library; `scrape_page` is modelled from the
point where the fetched page is in hand.  A `Page` carries the response
status (`none` models a page object without a `status` attribute), the two
selection operations and `find_similar`. -/

/-- The fetched page, as the script observes it. -/
structure Page where
  status : Option Nat
  css : String → Bool → List Element
  cssFirst : String → Option Element
  findSimilar : Element → ℚ → List Element

/-- The stderr warning of scrape_list.py:103-104: emitted when the page has
a status attribute and it is at least 400; processing continues. -/
def statusWarnings (page : Page) : List String :=
  match page.status with
  | some st => if st ≥ 400 then ["Warning: HTTP " ++ toString st ++ " response"] else []
  | none => []

/-- The stdout line of scrape_list.py:114 reporting the fallback size. -/
def fallbackMsg (n : Nat) : String :=
  "Using find_similar fallback, found " ++ toString n ++ " elements"

/-- One record (scrape_list.py:118-121): for every field of the field map,
in map order, the extracted value (possibly `none`). -/
def mkRecord (fields : List (String × String)) (element : Element) :
    List (String × Option String) :=
  fields.map fun nv => (nv.1, extract_field element nv.2)

/-- What `scrape_page` produces besides its return value: the item list,
plus the lines it prints to stdout and stderr. -/
structure ScrapeResult where
  items : List (List (String × Option String))
  stdout : List String
  stderr : List String
deriving DecidableEq, Repr

/-- The selection step of `scrape_page` (scrape_list.py:107-114): the
primary selector (honouring the adaptive flag); when it matched nothing and
adaptive mode is on, one reference element is re-selected with the plain
selector and, only if found, the elements become `find_similar` of it at
threshold 0.7 and the count is reported on stdout. -/
def selectedElements (page : Page) (item_selector : String) (adaptive : Bool) :
    List Element × List String :=
  let primary := page.css item_selector adaptive
  if primary.isEmpty && adaptive then
    match page.cssFirst item_selector with
    | some first =>
      let els := page.findSimilar first (7 / 10 : ℚ)
      (els, [fallbackMsg els.length])
    | none => (primary, [])
  else (primary, [])

/-- Embeds `scrape_page` (scrape_list.py:76-123), from after the fetch: check the
status, select the item elements (with the similarity fallback), then build
one record per element (scrape_list.py:116-121). -/
def scrape_page (page : Page) (item_selector : String)
    (fields : List (String × String)) (adaptive : Bool) : ScrapeResult :=
  let fb := selectedElements page item_selector adaptive
  { items := fb.1.map (mkRecord fields)
    stdout := fb.2
    stderr := statusWarnings page }

/-! ### `save_output` -/

/-- The `--format` choices admitted by argparse. -/
inductive Format where
  | json
  | csv
deriving DecidableEq, Repr

/-- The written output file: a JSON dump of the records, or CSV rows. -/
inductive OutputFile where
  | jsonFile (items : List (List (String × Option String)))
  | csvFile (rows : List (List String))
deriving DecidableEq, Repr

/-- One `csv.DictWriter` data row: the value of the record at each field name,
in fieldnames order; `None` is written as the empty string, and a missing
key yields the default `restval` `""`.  (A key outside `fieldnames` would
raise in Python; records built by `scrape_page` have exactly the field
map keys exactly, so that case cannot arise in this program.) -/
def recordRow (fieldnames : List String) (item : List (String × Option String)) :
    List String :=
  fieldnames.map fun f =>
    match item.lookup f with
    | some (some v) => v
    | some none => ""
    | none => ""

/-- The CSV branch of `save_output` (scrape_list.py:131-136): for a
nonempty item list, a header row of the keys of the first record followed by one
data row per record, in order; for an empty list no file is written. -/
def csvFileRows (items : List (List (String × Option String))) :
    Option (List (List String)) :=
  match items with
  | [] => none
  | first :: _ =>
    let fieldnames := first.map Prod.fst
    some (fieldnames :: items.map (recordRow fieldnames))

/-- Embeds `save_output` (scrape_list.py:126-137): JSON dumps the items (a file is
created even for an empty list); CSV writes header plus rows only when the
list is nonempty.  The `Saved N items to path` line is printed in every
case. -/
def save_output (items : List (List (String × Option String)))
    (output_path : String) (format : Format) : Option OutputFile × List String :=
  let file :=
    match format with
    | .json => some (OutputFile.jsonFile items)
    | .csv => (csvFileRows items).map OutputFile.csvFile
  (file, ["Saved " ++ toString items.length ++ " items to " ++ output_path])

/-! ### The CLI driver -/

/-- The `--fetcher` choices admitted by argparse. -/
inductive FetcherType where
  | basic
  | dynamic
  | stealth
deriving DecidableEq, Repr

/-- The parsed command line (after argparse has succeeded).  `fetcher`,
`cloudflare`, `visible` and `disable_resources` only configure the external
fetch, which the model receives as an already-fetched `Page`. -/
structure Args where
  url : String
  item_selector : String
  fields : String
  output : String := "output.json"
  format : Format := .json
  fetcher : FetcherType := .basic
  cloudflare : Bool := false
  visible : Bool := false
  adaptive : Bool := false
  disable_resources : Bool := false

/-- The observable outcome of one run of `main`: the process exit code, the
file written (if any) and the console output. -/
structure RunResult where
  exitCode : Nat
  outFile : Option OutputFile
  stdout : List String
  stderr : List String
deriving DecidableEq, Repr

/-- The progress lines of scrape_list.py:168-172. -/
def progressLines (args : Args) (fields : List (String × String)) : List String :=
  ["Scraping " ++ args.url,
   "Item selector: " ++ args.item_selector,
   "Fields: " ++ toString (fields.map Prod.fst)]
  ++ (if args.adaptive then ["Adaptive mode: enabled"] else [])

/-- Embeds `main` (scrape_list.py:140-188), from after `parse_args`, with the
fetched page supplied (argparse failures and fetch-layer errors terminate
the process from outside this code and are not modelled).  Parse the field
string; if no field parsed, print an error to stderr and exit 1.  Otherwise
scrape, then either save the output (nonempty items) or print
`No items found`; both paths fall off the end of `main`, exit code 0. -/
def main_run (args : Args) (page : Page) : RunResult :=
  let fields := parse_fields args.fields
  if fields.isEmpty then
    { exitCode := 1, outFile := none, stdout := []
      stderr := ["Error: No valid fields specified"] }
  else
    let r := scrape_page page args.item_selector fields args.adaptive
    if !r.items.isEmpty then
      let so := save_output r.items args.output args.format
      { exitCode := 0, outFile := so.1
        stdout := progressLines args fields ++ r.stdout ++ so.2
        stderr := r.stderr }
    else
      { exitCode := 0, outFile := none
        stdout := progressLines args fields ++ r.stdout ++ ["No items found"]
        stderr := r.stderr }

/-! ### Concrete fixtures (used by witnesses) -/

/-- A link element, as scraped from `<a href="/x" data-id="42">Click</a>`:
it has no sub-elements. -/
def elLink : Element :=
  .mk "Click"
    (fun n => if n = "href" then some "/x" else if n = "data-id" then some "42" else none)
    (fun _ => none)

/-- A title element with padded text. -/
def elTitle : Element := .mk " Widget " (fun _ => none) (fun _ => none)

/-- A card element whose `a` sub-element is `elLink` and whose `.title`
sub-element is `elTitle`; other selectors match nothing. -/
def elCard : Element :=
  .mk "card text" (fun n => if n = "id" then some "c1" else none)
    (fun s => if s = "a" then some elLink else if s = ".title" then some elTitle else none)

/-- A demonstration field map. -/
def demoFields : List (String × String) :=
  parse_fields "title:.title::text,link:a::attr(href)"

/-- A page whose primary selection finds one card. -/
def pagePlain : Page :=
  { status := some 200, css := fun _ _ => [elCard], cssFirst := fun _ => some elCard,
    findSimilar := fun _ _ => [] }

/-- A page where no selector matches anything. -/
def pageNoMatch : Page :=
  { status := some 200, css := fun _ _ => [], cssFirst := fun _ => none,
    findSimilar := fun _ _ => [] }

/-- A page whose primary selection is empty but where a reference element
is found and `find_similar` returns two cards. -/
def pageFallback : Page :=
  { status := some 200, css := fun _ _ => [], cssFirst := fun _ => some elCard,
    findSimilar := fun _ _ => [elCard, elCard] }

/-- Demonstration CLI arguments. -/
def argsDemo : Args :=
  { url := "https://example.com", item_selector := ".card",
    fields := "title:.title::text,link:a::attr(href)" }

/-! ### Association-list lemmas

`parse_fields` builds its map with Python-dict insertion; these lemmas
relate that to `List.lookup`, so that duplicate handling can be stated. -/

theorem lookup_cons {β : Type} (k : String) (v : β) (l : List (String × β)) (n : String) :
    ((k, v) :: l).lookup n = if n = k then some v else l.lookup n := by
  by_cases h : n = k
  · simp [List.lookup, h]
  · have hb : (n == k) = false := beq_eq_false_iff_ne.mpr h
    simp [List.lookup, hb, h]

theorem lookup_singleton {β : Type} (k : String) (v : β) (n : String) :
    ([(k, v)] : List (String × β)).lookup n = if n = k then some v else none := by
  rw [lookup_cons]; rfl

theorem lookup_append {β : Type} (l₁ l₂ : List (String × β)) (n : String) :
    (l₁ ++ l₂).lookup n = (l₁.lookup n).or (l₂.lookup n) := by
  induction l₁ with
  | nil => simp [List.lookup]
  | cons p t ih =>
    obtain ⟨k, v⟩ := p
    rw [List.cons_append, lookup_cons, lookup_cons]
    by_cases h : n = k <;> simp [h, ih]

theorem lookup_insertOverwrite (l : List (String × String)) (k v n : String) :
    (insertOverwrite l k v).lookup n = if n = k then some v else l.lookup n := by
  induction l with
  | nil => simp [insertOverwrite, lookup_cons]
  | cons p t ih =>
    obtain ⟨k', v'⟩ := p
    simp only [insertOverwrite]
    by_cases hk : k' = k
    · subst hk
      simp only [if_pos rfl]
      by_cases hn : n = k' <;> simp [lookup_cons, hn]
    · rw [if_neg hk, lookup_cons, lookup_cons, ih]
      by_cases hn : n = k' <;> by_cases hn2 : n = k <;>
        simp_all

/-- The well-formed `name:selector` pairs of a field string, in input
order, stripped, before duplicate handling. -/
def fieldPairs (fields_str : String) : List (String × String) :=
  (splitOnChar ',' fields_str.toList).filterMap fun field =>
    (splitOnFirstChar ':' field).map fun p =>
      (pyStrip (String.mk p.1), pyStrip (String.mk p.2))

theorem lookup_foldl_insertOverwrite (ps acc : List (String × String)) (n : String) :
    (ps.foldl (fun m p => insertOverwrite m p.1 p.2) acc).lookup n
      = (ps.reverse.lookup n).or (acc.lookup n) := by
  induction ps generalizing acc with
  | nil => simp [List.lookup]
  | cons p t ih =>
    obtain ⟨k, v⟩ := p
    rw [List.foldl_cons, ih, List.reverse_cons, lookup_append, lookup_insertOverwrite,
      lookup_singleton]
    cases t.reverse.lookup n <;> by_cases h : n = k <;> simp [h]

theorem parse_fields_eq_fieldPairs (s : String) :
    parse_fields s
      = (fieldPairs s).foldl (fun m p => insertOverwrite m p.1 p.2) [] := by
  unfold parse_fields fieldPairs
  generalize splitOnChar ',' s.toList = fs
  suffices h : ∀ (fs : List (List Char)) (acc : List (String × String)),
      fs.foldl (fun fields field =>
        match splitOnFirstChar ':' field with
        | some p => insertOverwrite fields (pyStrip (String.mk p.1)) (pyStrip (String.mk p.2))
        | none => fields) acc
      = (fs.filterMap fun field => (splitOnFirstChar ':' field).map fun p =>
          (pyStrip (String.mk p.1), pyStrip (String.mk p.2))).foldl
          (fun m p => insertOverwrite m p.1 p.2) acc from h fs []
  intro fs
  induction fs with
  | nil => intro acc; rfl
  | cons f t ih =>
    intro acc
    cases h : splitOnFirstChar ':' f <;> simp [h, List.filterMap_cons, ih]

/-! ### Claims about `parse_fields` -/

/-- C2: `parse_fields` splits its input on commas, splits each pair at the
first colon, trims both halves, silently drops pairs without a colon, and
a later pair with the same name overwrites the earlier one (the value of the map
at any name is the last stripped pair carrying that name); in particular
parsing `a:.x,b:.y::text,c:a::attr(href)` yields exactly the map
a ↦ `.x`, b ↦ `.y::text`, c ↦ `a::attr(href)`. -/
theorem parse_fields_spec (s : String) :
    parse_fields "a:.x,b:.y::text,c:a::attr(href)"
        = [("a", ".x"), ("b", ".y::text"), ("c", "a::attr(href)")]
    ∧ ∀ n : String, (parse_fields s).lookup n = (fieldPairs s).reverse.lookup n := by
  refine ⟨by decide, fun n => ?_⟩
  rw [parse_fields_eq_fieldPairs, lookup_foldl_insertOverwrite]
  simp [List.lookup]

/-- C10: a pair whose name is empty after stripping is kept: parsing
`:.x` yields the single-entry map with the empty-string name, and since
that map is nonempty the driver validation passes, so the run does not
exit with code 1 (it exits 0). -/
theorem parse_fields_empty_name :
    parse_fields ":.x" = [("", ".x")]
    ∧ ∀ (a : Args) (p : Page), (main_run { a with fields := ":.x" } p).exitCode = 0 := by
  refine ⟨by decide, fun a p => ?_⟩
  unfold main_run
  simp only [show parse_fields ":.x" = [("", ".x")] from by decide, List.isEmpty_cons]
  rw [if_neg (by simp)]
  split <;> rfl

/-! ### Claims about `extract_field` -/

/-- C3: `extract_field` checks the three forms in order, the text marker
first; on an expression that contains an attribute marker (and no text
marker) it parses the marker with the regex and returns the named
attribute of the selected sub-element — of the element itself when the
selector portion is empty — and returns `none` when the regex fails or no
sub-element matches.  The function is total, so no input raises an
error. -/
theorem extract_field_attr_form (element : Element) (selector : String)
    (htext : containsSub selector "::text" = false)
    (hattr : containsSub selector "::attr(" = true) :
    extract_field element selector =
      match attrMatch selector with
      | some p =>
        (if p.1 = "" then some element else element.cssFirst p.1).bind fun el => el.get p.2
      | none => none := by
  unfold extract_field
  rw [htext, hattr]
  rw [if_neg (by simp), if_pos rfl]
  cases h : attrMatch selector with
  | none => rfl
  | some p =>
    dsimp only
    by_cases hp : p.1 = ""
    · rw [if_neg (not_not_intro hp), if_pos hp]; rfl
    · rw [if_pos hp, if_neg hp]
      cases element.cssFirst p.1 <;> rfl

/-- Witness for C3: on the card fixture, `a::attr(href)` extracts the
href of the link. -/
theorem extract_field_attr_form_witness :
    extract_field elCard "a::attr(href)" = some "/x" := by
  have h := extract_field_attr_form elCard "a::attr(href)" (by decide) (by decide)
  rw [h]; decide

/-- C4: on an expression containing the text marker, `extract_field`
selects the sub-element named by the selector with the markers removed —
the element itself when that remainder is empty — and returns its stripped
text, `none` when nothing matches; on an expression with no marker it
returns the stripped text of the first match, `none` when nothing matches. -/
theorem extract_field_text_form (element : Element) (selector : String) :
    (containsSub selector "::text" = true →
      extract_field element selector =
        (if textRemainder selector = "" then some element
         else element.cssFirst (textRemainder selector)).map
          fun el => pyStrip el.text)
    ∧ (containsSub selector "::text" = false → containsSub selector "::attr(" = false →
      extract_field element selector
        = (element.cssFirst selector).map fun el => pyStrip el.text) := by
  constructor
  · intro htext
    unfold extract_field
    rw [htext, if_pos rfl]
    dsimp only
    by_cases hs : textRemainder selector = ""
    · rw [if_neg (not_not_intro hs), if_pos hs]; rfl
    · rw [if_pos hs, if_neg hs]
      cases element.cssFirst (textRemainder selector) <;> rfl
  · intro htext hattr
    unfold extract_field
    rw [htext, hattr, if_neg (by simp), if_neg (by simp)]
    cases element.cssFirst selector <;> rfl

/-- Witness for C4: on the card fixture, `.title::text` extracts the
stripped title text; a plain selector with no match yields `none`. -/
theorem extract_field_text_form_witness :
    extract_field elCard ".title::text" = some "Widget"
    ∧ extract_field elCard ".missing" = none := by
  constructor
  · have h := (extract_field_text_form elCard ".title::text").1 (by decide)
    rw [h]; decide
  · have h := (extract_field_text_form elCard ".missing").2 (by decide) (by decide)
    rw [h]; decide

/-- C9: an attribute marker naming an attribute with a non-word character
(`data-id`) fails the regex, so `extract_field` returns `none` for every
element — even `elLink`, which does carry a `data-id` attribute. -/
theorem extract_field_attr_nonword (element : Element) :
    extract_field element "a::attr(data-id)" = none
    ∧ elLink.get "data-id" = some "42" :=
  ⟨rfl, rfl⟩

/-! ### Claims about `scrape_page` -/

/-- C1: the similarity fallback is attempted iff the primary selector
matched zero elements and adaptive mode is on.  With matches, the primary
elements are used and nothing is reported.  With zero matches and adaptive
off, the result set is empty and no fallback is attempted.  With zero
matches and adaptive on, one reference element is re-selected with the
plain selector and, only if found, the items come from `find_similar`
against it at threshold 0.7, with the number of elements it found
reported. -/
theorem scrape_page_fallback (page : Page) (sel : String)
    (fields : List (String × String)) :
    (∀ adaptive, page.css sel adaptive ≠ [] →
      scrape_page page sel fields adaptive =
        { items := (page.css sel adaptive).map (mkRecord fields)
          stdout := []
          stderr := statusWarnings page })
    ∧ (page.css sel false = [] →
      scrape_page page sel fields false =
        { items := [], stdout := [], stderr := statusWarnings page })
    ∧ (page.css sel true = [] →
      scrape_page page sel fields true =
        match page.cssFirst sel with
        | some first =>
          { items := (page.findSimilar first (7 / 10 : ℚ)).map (mkRecord fields)
            stdout := [fallbackMsg (page.findSimilar first (7 / 10 : ℚ)).length]
            stderr := statusWarnings page }
        | none => { items := [], stdout := [], stderr := statusWarnings page }) := by
  refine ⟨fun adaptive h => ?_, fun h => ?_, fun h => ?_⟩
  · have hc : (page.css sel adaptive).isEmpty = false := by
      cases hcss : page.css sel adaptive with
      | nil => exact absurd hcss h
      | cons a t => rfl
    unfold scrape_page selectedElements
    dsimp only
    rw [if_neg (by simp [hc])]
  · unfold scrape_page selectedElements
    dsimp only
    rw [h, if_neg (by simp)]
    rfl
  · have hcond : ((page.css sel true).isEmpty && true) = true := by simp [h]
    unfold scrape_page selectedElements
    dsimp only
    rw [if_pos hcond]
    cases hc : page.cssFirst sel
    · simp [h]
    · rfl

/-- Witness for C1: on a page with an empty primary selection, a reference
element and a two-element `find_similar`, adaptive mode reports and uses
the fallback; with adaptive off the result is empty and unreported. -/
theorem scrape_page_fallback_witness :
    scrape_page pageFallback ".card" demoFields true =
      { items := [[("title", some "Widget"), ("link", some "/x")],
                  [("title", some "Widget"), ("link", some "/x")]]
        stdout := ["Using find_similar fallback, found 2 elements"]
        stderr := [] }
    ∧ scrape_page pageNoMatch ".card" demoFields false =
      { items := [], stdout := [], stderr := [] } := by
  constructor
  · have h := (scrape_page_fallback pageFallback ".card" demoFields).2.2 rfl
    rw [h]; decide
  · exact ((scrape_page_fallback pageNoMatch ".card" demoFields).2.1 rfl).trans (by decide)

theorem mkRecord_keys (fields : List (String × String)) (el : Element) :
    (mkRecord fields el).map Prod.fst = fields.map Prod.fst := by
  simp only [mkRecord, List.map_map]
  rfl

theorem scrape_page_items (page : Page) (sel : String)
    (fields : List (String × String)) (adaptive : Bool) :
    (scrape_page page sel fields adaptive).items
      = (selectedElements page sel adaptive).1.map (mkRecord fields) := rfl

/-- C8: every record of `scrape_page` has exactly the keys of the field map,
in field-map order (one entry, possibly `none`, per field); hence a CSV
header computed from the first record equals the parsed field names in
order. -/
theorem scrape_record_keys (page : Page) (sel : String)
    (fields : List (String × String)) (adaptive : Bool) :
    (∀ item ∈ (scrape_page page sel fields adaptive).items,
      item.map Prod.fst = fields.map Prod.fst)
    ∧ (∀ rows, csvFileRows (scrape_page page sel fields adaptive).items = some rows →
        rows.head? = some (fields.map Prod.fst)) := by
  have hitems := scrape_page_items page sel fields adaptive
  constructor
  · intro item hmem
    rw [hitems] at hmem
    obtain ⟨el, _, rfl⟩ := List.mem_map.mp hmem
    exact mkRecord_keys fields el
  · intro rows hrows
    rw [hitems] at hrows
    cases hsel : (selectedElements page sel adaptive).1 with
    | nil => rw [hsel] at hrows; simp [csvFileRows] at hrows
    | cons e t =>
      rw [hsel] at hrows
      simp only [List.map_cons, csvFileRows, Option.some.injEq] at hrows
      subst hrows
      simp [mkRecord_keys]

/-- Witness for C8: on the one-card page, the keys of the single record are
the demo field names, and the head of the CSV rows is that same key list. -/
theorem scrape_record_keys_witness :
    [("title", (some "Widget" : Option String)), ("link", some "/x")].map Prod.fst
        = demoFields.map Prod.fst
    ∧ [["title", "link"], ["Widget", "/x"]].head? = some (demoFields.map Prod.fst) := by
  constructor
  · exact (scrape_record_keys pagePlain ".card" demoFields false).1
      [("title", some "Widget"), ("link", some "/x")] (by decide)
  · exact (scrape_record_keys pagePlain ".card" demoFields false).2
      [["title", "link"], ["Widget", "/x"]] (by decide)

/-! ### Claims about `save_output` and the driver -/

/-- C7: writing a nonempty result set as CSV produces the header row — the
keys of the first record in key order — followed by exactly one data row per
record, in result-set order. -/
theorem save_output_csv_shape (first : List (String × Option String))
    (rest : List (List (String × Option String))) (path : String) :
    (save_output (first :: rest) path Format.csv).1
      = some (OutputFile.csvFile
          ((first.map Prod.fst) :: (first :: rest).map (recordRow (first.map Prod.fst))))
    ∧ ((first :: rest).map (recordRow (first.map Prod.fst))).length
        = (first :: rest).length :=
  ⟨rfl, by simp⟩

theorem main_run_exitCode (args : Args) (page : Page) :
    (main_run args page).exitCode
      = if (parse_fields args.fields).isEmpty then 1 else 0 := by
  unfold main_run
  dsimp only
  by_cases h : (parse_fields args.fields).isEmpty = true
  · rw [if_pos h, if_pos h]
  · rw [if_neg h, if_neg h]
    split <;> rfl

/-- C5: the run exits 1 (with the stderr message) exactly when the field
string parses to no fields; with at least one field it completes with exit
code 0 — also when zero items are found — and 0 and 1 are the only exit
codes this code produces. -/
theorem main_exit_codes (args : Args) (page : Page) :
    ((main_run args page).exitCode = 1 ↔ parse_fields args.fields = [])
    ∧ (parse_fields args.fields = [] →
        (main_run args page).stderr = ["Error: No valid fields specified"])
    ∧ (parse_fields args.fields ≠ [] → (main_run args page).exitCode = 0)
    ∧ ((main_run args page).exitCode = 0 ∨ (main_run args page).exitCode = 1) := by
  refine ⟨?_, ?_, ?_, ?_⟩
  · rw [main_run_exitCode]
    by_cases h : (parse_fields args.fields).isEmpty = true
    · simp [h, List.isEmpty_iff.mp h]
    · simp only [h, Bool.false_eq_true, if_false]
      constructor
      · intro hc; exact absurd hc (by decide)
      · intro hc; exact absurd (by simp [hc] : (parse_fields args.fields).isEmpty = true) h
  · intro hf
    unfold main_run
    dsimp only
    rw [if_pos (by simp [hf])]
  · intro hf
    rw [main_run_exitCode, if_neg (fun hc => hf (List.isEmpty_iff.mp hc))]
  · rw [main_run_exitCode]
    split
    · right; rfl
    · left; rfl

/-- Witness for C5: a colon-free field string exits 1 with the error
message; the demo arguments exit 0. -/
theorem main_exit_codes_witness :
    (main_run { argsDemo with fields := "nocolon" } pagePlain).exitCode = 1
    ∧ (main_run { argsDemo with fields := "nocolon" } pagePlain).stderr
        = ["Error: No valid fields specified"]
    ∧ (main_run argsDemo pagePlain).exitCode = 0 := by
  refine ⟨?_, ?_, ?_⟩
  · exact (main_exit_codes { argsDemo with fields := "nocolon" } pagePlain).1.mpr (by decide)
  · exact (main_exit_codes { argsDemo with fields := "nocolon" } pagePlain).2.1 (by decide)
  · exact (main_exit_codes argsDemo pagePlain).2.2.1 (by decide)

/-- C6: when the scrape yields an empty result set (and the run got past
field validation), the driver writes no output file and prints
`No items found`. -/
theorem main_no_items (args : Args) (page : Page)
    (hf : parse_fields args.fields ≠ [])
    (h : (scrape_page page args.item_selector (parse_fields args.fields)
          args.adaptive).items = []) :
    (main_run args page).outFile = none
    ∧ "No items found" ∈ (main_run args page).stdout := by
  unfold main_run
  dsimp only
  rw [if_neg (fun hc => hf (List.isEmpty_iff.mp hc))]
  rw [if_neg (by simp [h])]
  exact ⟨rfl, by simp⟩

/-- Witness for C6: the no-match page with the demo arguments writes no
file and reports `No items found`. -/
theorem main_no_items_witness :
    (main_run argsDemo pageNoMatch).outFile = none
    ∧ "No items found" ∈ (main_run argsDemo pageNoMatch).stdout :=
  main_no_items argsDemo pageNoMatch (by decide) (by decide)

end ScrapeList
